import Mathlib

/-!
Verification of the control-panel firmware in `src/src/main.cpp`
(Greppijonathan/controladorTemperatura).

The firmware's observable behaviour is shallowly embedded: the global
state variables and the hardware levels they drive become a Lean record
`SystemState`; each C++ function that mutates them becomes a Lean
function on that record.  Pin levels are booleans (`false` = LOW,
`true` = HIGH); `millis()` timestamps are naturals reduced mod `2 ^ 32`
exactly where the 32-bit unsigned subtraction in the source wraps.
Display drawing calls have no observable effect on this state and are
not modelled; the display power command (0x11 wake / 0x10 sleep), the
backlight pin, the CPU clock in MHz and the started/stopped status of
the Bluetooth channel are modelled, since the specification speaks
about them.
-/

namespace ControladorTemperatura

/-- Button geometry constants from main.cpp (`btnY`, `btnH`, `btnW`,
`btn1X`, `btn2X`). -/
def btnY : Nat := 250

/-- Button height, from main.cpp. -/
def btnH : Nat := 60

/-- Button width, from main.cpp. -/
def btnW : Nat := 105

/-- X origin of the left (ON/OFF) button, from main.cpp. -/
def btn1X : Nat := 10

/-- X origin of the right (sleep/wake) button, from main.cpp. -/
def btn2X : Nat := 125

/-- The firmware's global state together with the hardware levels it
drives.  Fields `sistemaEstado` … `estadoRele` are the global booleans
of main.cpp; `lastRelayMillis` and `lastTempMillis` are the two
last-fired timestamps; `cpuMhz` is the value last passed to
`setCpuFrequencyMhz`; `pinRele1`, `pinRele2`, `pinBL` are the levels
last written by `digitalWrite` (`false` = LOW, `true` = HIGH);
`displayDormido` records whether the last display power command was
sleep (0x10) rather than wake (0x11); `btIniciado` records whether the
Bluetooth channel is started (`SerialBT.begin` ran more recently than
`SerialBT.end`). -/
structure SystemState where
  sistemaEstado : Bool
  pantallaEncendida : Bool
  btActivo : Bool
  estadoRele : Bool
  lastRelayMillis : Nat
  lastTempMillis : Nat
  cpuMhz : Nat
  pinRele1 : Bool
  pinRele2 : Bool
  pinBL : Bool
  displayDormido : Bool
  btIniciado : Bool
  deriving Repr, DecidableEq

/-- `gestionarModoEnergia` from main.cpp.  `despertar = true` is the
wake path: CPU to 240 MHz, display wake command 0x11, backlight pin
written LOW (the source's `digitalWrite(PIN_BL, LOW)`), display marked
awake.  `despertar = false` is the sleep path: backlight pin written
LOW (again LOW in the source), display sleep command 0x10, CPU to
160 MHz when Bluetooth is active else 80 MHz, display marked asleep. -/
def gestionarModoEnergia (despertar : Bool) (s : SystemState) : SystemState :=
  if despertar then
    { s with cpuMhz := 240, displayDormido := false, pinBL := false,
             pantallaEncendida := true }
  else
    { s with pinBL := false, displayDormido := true,
             cpuMhz := if s.btActivo then 160 else 80,
             pantallaEncendida := false }

/-- `toggleBluetooth` from main.cpp: flip `btActivo`; when the new value
is true, raise the CPU clock to 240 MHz and start the channel
(`SerialBT.begin`); when false, stop the channel (`SerialBT.end`)
leaving the CPU clock untouched. -/
def toggleBluetooth (s : SystemState) : SystemState :=
  let nuevo := !s.btActivo
  if nuevo then
    { s with btActivo := nuevo, cpuMhz := 240, btIniciado := true }
  else
    { s with btActivo := nuevo, btIniciado := false }

/-- Elapsed milliseconds as the source computes it: `millis()` is a
32-bit unsigned value, so `ahora - antes` wraps mod `2 ^ 32`. -/
def transcurrido (ahora antes : Nat) : Nat :=
  (ahora + 2 ^ 32 - antes) % 2 ^ 32

/-- The sensor branch of `loop` in main.cpp: when at least 2000 ms have
elapsed since `lastTempMillis`, reset the baseline and request a
temperature conversion (the conversion itself has no effect on this
state). -/
def tareaSensores (ahora : Nat) (s : SystemState) : SystemState :=
  if 2000 ≤ transcurrido ahora s.lastTempMillis then
    { s with lastTempMillis := ahora }
  else s

/-- The relay branch of `loop` in main.cpp: when at least 3000 ms have
elapsed since `lastRelayMillis`, reset the baseline to now, invert
`estadoRele` and write the new phase to relay pin 1 and its negation to
relay pin 2. -/
def tareaRele (ahora : Nat) (s : SystemState) : SystemState :=
  if 3000 ≤ transcurrido ahora s.lastRelayMillis then
    { s with lastRelayMillis := ahora,
             estadoRele := !s.estadoRele,
             pinRele1 := !s.estadoRele,
             pinRele2 := !(!s.estadoRele) }
  else s

/-- Logical actions a touch can resolve to (vocabulary of the touch
router). -/
inductive TouchAction where
  | NoAction
  | ToggleWireless
  | WakeDisplay
  | ToggleOutput
  | SleepDisplay
  deriving Repr, DecidableEq

/-- The top-right status region test from `loop`: `y < 40 && x > 180`. -/
def enRegionBT (x y : Nat) : Bool :=
  decide (y < 40) && decide (180 < x)

/-- The left (ON/OFF) button hit test from `loop`:
`x > btn1X && x < btn1X + btnW && y > btnY && y < btnY + btnH`. -/
def enBoton1 (x y : Nat) : Bool :=
  decide (btn1X < x) && decide (x < btn1X + btnW) &&
    decide (btnY < y) && decide (y < btnY + btnH)

/-- The right (sleep/wake) button hit test from `loop`:
`x > btn2X && x < btn2X + btnW && y > btnY && y < btnY + btnH`. -/
def enBoton2 (x y : Nat) : Bool :=
  decide (btn2X < x) && decide (x < btn2X + btnW) &&
    decide (btnY < y) && decide (y < btnY + btnH)

/-- The touch dispatch of `loop` in main.cpp, read off branch by
branch: the top-right region toggles Bluetooth regardless of power
mode; otherwise, while the display is off only the right button wakes
it; while on, the left button toggles the output and the right button
sleeps the display. -/
def resolverToque (s : SystemState) (x y : Nat) : TouchAction :=
  if enRegionBT x y then TouchAction.ToggleWireless
  else if !s.pantallaEncendida then
    if enBoton2 x y then TouchAction.WakeDisplay else TouchAction.NoAction
  else
    if enBoton1 x y then TouchAction.ToggleOutput
    else if enBoton2 x y then TouchAction.SleepDisplay
    else TouchAction.NoAction

/-- The state effect of the touch branch of `loop`: apply the side
effect of the resolved action (flip Bluetooth, wake, sleep, flip
`sistemaEstado`, or nothing). -/
def manejarToque (s : SystemState) (x y : Nat) : SystemState :=
  match resolverToque s x y with
  | TouchAction.ToggleWireless => toggleBluetooth s
  | TouchAction.WakeDisplay => gestionarModoEnergia true s
  | TouchAction.SleepDisplay => gestionarModoEnergia false s
  | TouchAction.ToggleOutput => { s with sistemaEstado := !s.sistemaEstado }
  | TouchAction.NoAction => s

/-- One decimal place rendering of a temperature given in tenths of a
degree, matching Arduino `String(t, 1)` on values representable in
tenths. -/
def fmtTemp1 (decimas : Int) : String :=
  (if decimas < 0 then "-" else "") ++
    toString (decimas.natAbs / 10) ++ "." ++ toString (decimas.natAbs % 10)

/-- One sensor field of the report: the ternary
`t == DEVICE_DISCONNECTED_C ? "ERR" : String(t, 1) + "C"` of main.cpp,
with the disconnected sentinel modelled as `none`. -/
def campoSensor (t : Option Int) : String :=
  match t with
  | none => "ERR"
  | some v => fmtTemp1 v ++ "C"

/-- `enviarReporteEstado` from main.cpp as the text it builds: the same
sequence of `+=` concatenations, with readings for channels 0 and 1
passed in (`none` = disconnected sentinel `DEVICE_DISCONNECTED_C`). -/
def enviarReporteEstado (s : SystemState) (t1 t2 : Option Int) : String :=
  let reporte := "\n--- REPORTE ESP32 ---\n"
  let reporte := reporte ++ ("S1: " ++ campoSensor t1 ++ " | ")
  let reporte := reporte ++ ("S2: " ++ campoSensor t2 ++ "\n")
  let reporte := reporte ++ ("Reles: K1=" ++ (if s.estadoRele then "ON" else "OFF")
    ++ " K2=" ++ (if !s.estadoRele then "ON" else "OFF") ++ "\n")
  let reporte := reporte ++ ("Tactil: "
    ++ (if s.sistemaEstado then "ENCENDIDO" else "APAGADO") ++ "\n")
  let reporte := reporte ++ ("Pantalla: "
    ++ (if s.pantallaEncendida then "ON" else "SLEEP") ++ "\n")
  reporte ++ "---------------------\n"

/-- Outcome of the boot-time calibration routine: either the stored
blob was loaded, or the interactive acquisition ran. -/
inductive AccionCalibracion where
  | cargada
  | interactiva
  deriving Repr, DecidableEq

/-- `touch_calibrate` from main.cpp over an abstract byte store.
`almacen` is the content of `/TouchCalData` when the file exists;
`check` becomes 1 exactly when the file exists and 14 bytes could be
read from it (a longer file also passes, its first 14 bytes are used).
The blob is loaded only when `check` holds and no serial input is
pending (`check && !Serial.available()`); otherwise the interactive
routine runs and the 14 bytes it produced are written back. -/
def touch_calibrate (almacen : Option (List Nat)) (serialDisponible : Bool)
    (adquirida : List Nat) : AccionCalibracion × Option (List Nat) :=
  let check : Bool :=
    match almacen with
    | some datos => decide (14 ≤ datos.length)
    | none => false
  if check && !serialDisponible then
    (AccionCalibracion.cargada, almacen)
  else
    (AccionCalibracion.interactiva, some (adquirida.take 14))

/-- The C++ global initialisers of main.cpp applied over an arbitrary
pre-boot hardware state `hw` (pin levels and CPU clock at reset are
unknown): `sistemaEstado = false`, `pantallaEncendida = true`,
`btActivo = false`, `estadoRele = false`, both timestamps 0.  The
Bluetooth channel is not started at reset. -/
def globalsIniciales (hw : SystemState) : SystemState :=
  { hw with sistemaEstado := false, pantallaEncendida := true,
            btActivo := false, estadoRele := false,
            lastRelayMillis := 0, lastTempMillis := 0,
            btIniciado := false }

/-- `setup` from main.cpp: from the initialised globals, raise the CPU
clock to 240 MHz, drive relay pin 1 LOW and relay pin 2 HIGH,
initialise the display (leaving it awake), run `touch_calibrate`
(returning its action and the possibly updated store), then force the
backlight pin LOW (the source's final `digitalWrite(PIN_BL, LOW)`) and
set `pantallaEncendida = true`. -/
def setup (hw : SystemState) (almacen : Option (List Nat))
    (serialDisponible : Bool) (adquirida : List Nat) :
    SystemState × AccionCalibracion × Option (List Nat) :=
  let s := globalsIniciales hw
  let s := { s with cpuMhz := 240 }
  let s := { s with pinRele1 := false, pinRele2 := true }
  let s := { s with displayDormido := false }
  let cal := touch_calibrate almacen serialDisponible adquirida
  let s := { s with pinBL := false, pantallaEncendida := true }
  (s, cal)

/-- A representative pre-boot hardware state (all levels low, clock 0);
`setup` overwrites everything the claims speak about. -/
def hwReset : SystemState :=
  { sistemaEstado := false, pantallaEncendida := false, btActivo := false,
    estadoRele := false, lastRelayMillis := 0, lastTempMillis := 0,
    cpuMhz := 0, pinRele1 := false, pinRele2 := false, pinBL := false,
    displayDormido := false, btIniciado := false }

/-- The state right after `setup` on a boot with no stored calibration
and no pending serial input. -/
def estadoInicial : SystemState :=
  (setup hwReset none false []).1

/-- The states the firmware can be in: the state after `setup` on any
boot, closed under the sensor task, the relay task, the touch handler,
the Bluetooth toggle and the power-mode transitions. -/
inductive Alcanzable : SystemState → Prop where
  | boot (hw : SystemState) (alm : Option (List Nat)) (ser : Bool)
      (adq : List Nat) : Alcanzable (setup hw alm ser adq).1
  | sensores (ahora : Nat) (s : SystemState) :
      Alcanzable s → Alcanzable (tareaSensores ahora s)
  | rele (ahora : Nat) (s : SystemState) :
      Alcanzable s → Alcanzable (tareaRele ahora s)
  | toque (x y : Nat) (s : SystemState) :
      Alcanzable s → Alcanzable (manejarToque s x y)
  | bt (s : SystemState) : Alcanzable s → Alcanzable (toggleBluetooth s)
  | energia (d : Bool) (s : SystemState) :
      Alcanzable s → Alcanzable (gestionarModoEnergia d s)

/-- The state after sleeping the freshly booted panel: display off, CPU
at the 80 MHz tier, Bluetooth off. -/
def estadoDormido : SystemState :=
  gestionarModoEnergia false estadoInicial

/-- The state with the Bluetooth channel freshly enabled and started. -/
def estadoBTEncendido : SystemState :=
  toggleBluetooth estadoInicial

/-- Split a character list at newline characters; a trailing newline
yields a final empty line, so this agrees with splitting the string on
the newline separator. -/
def partirLineas (cs : List Char) : List (List Char) :=
  match cs with
  | [] => [[]]
  | c :: resto =>
    let r := partirLineas resto
    if c = '\n' then [] :: r
    else
      match r with
      | [] => [[c]]
      | l :: ls => (c :: l) :: ls

/-- The newline-separated lines of a report text. -/
def lineasDe (r : String) : List String :=
  (partirLineas r.data).map (fun l => String.mk l)

/-- A line of the report that carries a sensor reading: it opens with
one of the two sensor markers. -/
def esLineaSensor (l : String) : Bool :=
  List.isPrefixOf "S1:".data l.data || List.isPrefixOf "S2:".data l.data

/-- Join lines with single newline separators (inverse view of
`lineasDe`). -/
def unirLineas : List String → String
  | [] => ""
  | [l] => l
  | l :: m :: resto => l ++ "\n" ++ unirLineas (m :: resto)

/-- Modelled from the spec, with the layout amended to what the code
emits: the report is the fixed line sequence — empty lead-in, header,
ONE sensor line holding both channels (each field one-decimal value
with unit or the `ERR` marker), one relay line naming both channels'
ON/OFF, one line for the touch output, one line for the display state,
footer, empty trailer — joined by newlines. -/
def reporteEsperado (s : SystemState) (t1 t2 : Option Int) : String :=
  unirLineas
    ["", "--- REPORTE ESP32 ---",
     "S1: " ++ campoSensor t1 ++ " | " ++ "S2: " ++ campoSensor t2,
     "Reles: K1=" ++ (if s.estadoRele then "ON" else "OFF")
       ++ " K2=" ++ (if !s.estadoRele then "ON" else "OFF"),
     "Tactil: " ++ (if s.sistemaEstado then "ENCENDIDO" else "APAGADO"),
     "Pantalla: " ++ (if s.pantallaEncendida then "ON" else "SLEEP"),
     "---------------------", ""]

/-! ### Helper lemmas: frame facts about the individual operations -/

/-- `toggleBluetooth` leaves the relay phase and both relay pins
untouched. -/
theorem toggleBluetooth_marcoRele (s : SystemState) :
    (toggleBluetooth s).estadoRele = s.estadoRele ∧
    (toggleBluetooth s).pinRele1 = s.pinRele1 ∧
    (toggleBluetooth s).pinRele2 = s.pinRele2 := by
  cases hb : s.btActivo <;> simp [toggleBluetooth, hb]

/-- `gestionarModoEnergia` leaves the relay phase and both relay pins
untouched. -/
theorem gestionarModoEnergia_marcoRele (d : Bool) (s : SystemState) :
    (gestionarModoEnergia d s).estadoRele = s.estadoRele ∧
    (gestionarModoEnergia d s).pinRele1 = s.pinRele1 ∧
    (gestionarModoEnergia d s).pinRele2 = s.pinRele2 := by
  cases d <;> simp [gestionarModoEnergia]

/-- The relay-pin/phase invariant holds in every reachable state. -/
theorem relesInvariante (s : SystemState) (h : Alcanzable s) :
    s.pinRele1 = s.estadoRele ∧ s.pinRele2 = (!s.estadoRele) := by
  induction h with
  | boot hw alm ser adq => exact ⟨rfl, rfl⟩
  | sensores ahora s _ ih =>
      unfold tareaSensores
      split <;> exact ih
  | rele ahora s _ ih =>
      unfold tareaRele
      split
      · exact ⟨rfl, rfl⟩
      · exact ih
  | toque x y s _ ih =>
      unfold manejarToque
      cases hres : resolverToque s x y
      · exact ih
      · obtain ⟨he, h1, h2⟩ := toggleBluetooth_marcoRele s
        show (toggleBluetooth s).pinRele1 = (toggleBluetooth s).estadoRele ∧
          (toggleBluetooth s).pinRele2 = (!(toggleBluetooth s).estadoRele)
        exact ⟨by rw [h1, ih.1, he], by rw [h2, ih.2, he]⟩
      · obtain ⟨he, h1, h2⟩ := gestionarModoEnergia_marcoRele true s
        show (gestionarModoEnergia true s).pinRele1
            = (gestionarModoEnergia true s).estadoRele ∧
          (gestionarModoEnergia true s).pinRele2
            = (!(gestionarModoEnergia true s).estadoRele)
        exact ⟨by rw [h1, ih.1, he], by rw [h2, ih.2, he]⟩
      · exact ih
      · obtain ⟨he, h1, h2⟩ := gestionarModoEnergia_marcoRele false s
        show (gestionarModoEnergia false s).pinRele1
            = (gestionarModoEnergia false s).estadoRele ∧
          (gestionarModoEnergia false s).pinRele2
            = (!(gestionarModoEnergia false s).estadoRele)
        exact ⟨by rw [h1, ih.1, he], by rw [h2, ih.2, he]⟩
  | bt s _ ih =>
      obtain ⟨he, h1, h2⟩ := toggleBluetooth_marcoRele s
      exact ⟨by rw [h1, ih.1, he], by rw [h2, ih.2, he]⟩
  | energia d s _ ih =>
      obtain ⟨he, h1, h2⟩ := gestionarModoEnergia_marcoRele d s
      exact ⟨by rw [h1, ih.1, he], by rw [h2, ih.2, he]⟩

/-! ### Claim theorems -/

/-- C1: in every reachable state the two relay outputs are complementary:
relay pin 1 carries `estadoRele`, relay pin 2 carries its negation, so
the two pins always differ — at boot, after every relay-task tick, and
after every other operation. -/
theorem C1_relesComplementarios (s : SystemState) (h : Alcanzable s) :
    s.pinRele1 = s.estadoRele ∧ s.pinRele2 = (!s.estadoRele) ∧
    s.pinRele1 ≠ s.pinRele2 := by
  obtain ⟨h1, h2⟩ := relesInvariante s h
  refine ⟨h1, h2, ?_⟩
  rw [h1, h2]
  cases s.estadoRele <;> simp

/-- C1 witness: the invariant instantiated at the concrete boot state. -/
theorem C1_relesComplementarios_witness :
    estadoInicial.pinRele1 = estadoInicial.estadoRele ∧
    estadoInicial.pinRele2 = (!estadoInicial.estadoRele) ∧
    estadoInicial.pinRele1 ≠ estadoInicial.pinRele2 :=
  C1_relesComplementarios estadoInicial (Alcanzable.boot hwReset none false [])

/-- C10: whatever the pre-boot hardware state, the stored calibration
and the serial line, `setup` always ends in the same logical state:
display awake, touch output off, wireless off, relay phase false, relay
pin 1 LOW and relay pin 2 HIGH. -/
theorem C10_estadoTrasSetup (hw : SystemState) (alm : Option (List Nat))
    (ser : Bool) (adq : List Nat) :
    (setup hw alm ser adq).1.pantallaEncendida = true ∧
    (setup hw alm ser adq).1.sistemaEstado = false ∧
    (setup hw alm ser adq).1.btActivo = false ∧
    (setup hw alm ser adq).1.estadoRele = false ∧
    (setup hw alm ser adq).1.pinRele1 = false ∧
    (setup hw alm ser adq).1.pinRele2 = true := by
  exact ⟨rfl, rfl, rfl, rfl, rfl, rfl⟩

/-- C8: sleeping and then waking restores `sistemaEstado`
(touchOutputEnabled), and a power-mode transition in either direction
changes nothing besides `pantallaEncendida`, the display/backlight
power state and the CPU clock: touch output, wireless flag, relay
phase, relay pins, channel status and both timestamps are preserved. -/
theorem C8_transicionesEnergiaMarco (s : SystemState) (d : Bool) :
    (gestionarModoEnergia true (gestionarModoEnergia false s)).sistemaEstado
      = s.sistemaEstado ∧
    (gestionarModoEnergia d s).sistemaEstado = s.sistemaEstado ∧
    (gestionarModoEnergia d s).btActivo = s.btActivo ∧
    (gestionarModoEnergia d s).estadoRele = s.estadoRele ∧
    (gestionarModoEnergia d s).pinRele1 = s.pinRele1 ∧
    (gestionarModoEnergia d s).pinRele2 = s.pinRele2 ∧
    (gestionarModoEnergia d s).btIniciado = s.btIniciado ∧
    (gestionarModoEnergia d s).lastRelayMillis = s.lastRelayMillis ∧
    (gestionarModoEnergia d s).lastTempMillis = s.lastTempMillis := by
  cases d <;> simp [gestionarModoEnergia]

/-- C9: when the Bluetooth toggle turns the channel on it always raises
the CPU clock to 240 MHz and starts the channel, whatever the current
clock tier or display state; when it turns the channel off it leaves
the CPU clock exactly as it was. -/
theorem C9_cpuAlConmutarBT (s : SystemState) :
    (s.btActivo = false →
      (toggleBluetooth s).cpuMhz = 240 ∧
      (toggleBluetooth s).btIniciado = true) ∧
    (s.btActivo = true →
      (toggleBluetooth s).cpuMhz = s.cpuMhz ∧
      (toggleBluetooth s).btIniciado = false) := by
  cases hb : s.btActivo <;>
    simp [toggleBluetooth, hb]

/-- C9 witness: from the asleep state (display off, CPU lowered to
80 MHz), enabling Bluetooth raises the clock to 240 MHz. -/
theorem C9_cpuAlConmutarBT_witness :
    estadoDormido.pantallaEncendida = false ∧ estadoDormido.cpuMhz = 80 ∧
    (toggleBluetooth estadoDormido).cpuMhz = 240 ∧
    (toggleBluetooth estadoDormido).btIniciado = true :=
  ⟨by decide, by decide, (C9_cpuAlConmutarBT estadoDormido).1 (by decide)⟩

/-- C7 counterexample: starting from a state where the channel is
enabled, toggling twice does return `btActivo` to its original value,
but the last channel operation is `SerialBT.begin`, so the channel ends
up started, not stopped. -/
theorem C7_contraejemplo :
    estadoBTEncendido.btActivo = true ∧
    (toggleBluetooth (toggleBluetooth estadoBTEncendido)).btActivo
      = estadoBTEncendido.btActivo ∧
    (toggleBluetooth (toggleBluetooth estadoBTEncendido)).btIniciado = true := by
  decide

/-- C7 (amended): toggling twice always restores `btActivo`; when the
initial state had the channel disabled, the double toggle leaves the
channel stopped, and when it had it enabled, started. -/
theorem C7_toggleDoble (s : SystemState) :
    (toggleBluetooth (toggleBluetooth s)).btActivo = s.btActivo ∧
    (s.btActivo = false →
      (toggleBluetooth (toggleBluetooth s)).btIniciado = false) ∧
    (s.btActivo = true →
      (toggleBluetooth (toggleBluetooth s)).btIniciado = true) := by
  cases hb : s.btActivo <;>
    simp [toggleBluetooth, hb]

/-- C7 witness: the amended claim at the boot state (channel disabled):
double toggle restores `btActivo = false` and the channel is stopped. -/
theorem C7_toggleDoble_witness :
    (toggleBluetooth (toggleBluetooth estadoInicial)).btActivo
      = estadoInicial.btActivo ∧
    (toggleBluetooth (toggleBluetooth estadoInicial)).btIniciado = false :=
  ⟨(C7_toggleDoble estadoInicial).1,
   (C7_toggleDoble estadoInicial).2.1 (by decide)⟩

/-- C2: the sleep path marks the display asleep, issues the sleep
command and lowers the CPU clock to 160 MHz with Bluetooth active and
80 MHz without — but the level it writes to the backlight pin is the
very same LOW that the wake path writes, so the backlight output after
`sleep()` is not distinct from the one `wake()` establishes. -/
theorem C2_dormirNoApagaLuz (s : SystemState) :
    (gestionarModoEnergia false s).pantallaEncendida = false ∧
    (gestionarModoEnergia false s).displayDormido = true ∧
    (gestionarModoEnergia false s).cpuMhz
      = (if s.btActivo then 160 else 80) ∧
    (gestionarModoEnergia false s).pinBL
      = (gestionarModoEnergia true s).pinBL := by
  simp [gestionarModoEnergia]

/-- C3: a touch in the fixed top-right status region resolves to the
wireless toggle whatever the power mode; outside it, while the display
is asleep, only the designated wake-button region wakes the display and
every other coordinate resolves to no action and leaves the state
completely unchanged. -/
theorem C3_enrutamientoToque (s : SystemState) (x y : Nat) :
    (enRegionBT x y = true →
      resolverToque s x y = TouchAction.ToggleWireless) ∧
    (enRegionBT x y = false → s.pantallaEncendida = false →
      (enBoton2 x y = true →
        resolverToque s x y = TouchAction.WakeDisplay) ∧
      (enBoton2 x y = false →
        resolverToque s x y = TouchAction.NoAction ∧
        manejarToque s x y = s)) := by
  constructor
  · intro h
    simp [resolverToque, h]
  · intro h hp
    constructor
    · intro h2
      simp [resolverToque, h, hp, h2]
    · intro h2
      have hr : resolverToque s x y = TouchAction.NoAction := by
        simp [resolverToque, h, hp, h2]
      exact ⟨hr, by simp [manejarToque, hr]⟩

/-- C3 witness: concrete coordinates on the asleep state — (200, 10)
lies in the status region and toggles wireless, (130, 260) lies in the
wake button and wakes, (5, 5) lies in neither and changes nothing. -/
theorem C3_enrutamientoToque_witness :
    resolverToque estadoDormido 200 10 = TouchAction.ToggleWireless ∧
    resolverToque estadoDormido 130 260 = TouchAction.WakeDisplay ∧
    resolverToque estadoDormido 5 5 = TouchAction.NoAction ∧
    manejarToque estadoDormido 5 5 = estadoDormido :=
  ⟨(C3_enrutamientoToque estadoDormido 200 10).1 (by decide),
   ((C3_enrutamientoToque estadoDormido 130 260).2 (by decide)
     (by decide)).1 (by decide),
   ((C3_enrutamientoToque estadoDormido 5 5).2 (by decide)
     (by decide)).2 (by decide)⟩

/-- C5: the relay task fires exactly when at least 3000 ms have elapsed
since the stored baseline (under the source's wrapping 32-bit
subtraction): below 3000 ms the state is untouched, and a firing flips
the phase exactly once and resets the baseline to the current time. -/
theorem C5_disparoRele (ahora : Nat) (s : SystemState) :
    (transcurrido ahora s.lastRelayMillis < 3000 → tareaRele ahora s = s) ∧
    (3000 ≤ transcurrido ahora s.lastRelayMillis →
      (tareaRele ahora s).estadoRele = (!s.estadoRele) ∧
      (tareaRele ahora s).lastRelayMillis = ahora) := by
  constructor
  · intro h
    have hn : ¬ 3000 ≤ transcurrido ahora s.lastRelayMillis := by omega
    simp [tareaRele, hn]
  · intro h
    simp [tareaRele, h]

/-- C5 witness: from the boot state (baseline 0), a tick at 2999 ms
does not fire; a tick at 3000 ms flips the phase once and moves the
baseline to 3000; then 5999 does not fire again but 6000 flips back. -/
theorem C5_disparoRele_witness :
    tareaRele 2999 estadoInicial = estadoInicial ∧
    (tareaRele 3000 estadoInicial).estadoRele
      = (!estadoInicial.estadoRele) ∧
    (tareaRele 3000 estadoInicial).lastRelayMillis = 3000 ∧
    tareaRele 5999 (tareaRele 3000 estadoInicial)
      = tareaRele 3000 estadoInicial ∧
    (tareaRele 6000 (tareaRele 3000 estadoInicial)).estadoRele
      = (!(tareaRele 3000 estadoInicial).estadoRele) :=
  ⟨(C5_disparoRele 2999 estadoInicial).1 (by decide),
   ((C5_disparoRele 3000 estadoInicial).2 (by decide)).1,
   ((C5_disparoRele 3000 estadoInicial).2 (by decide)).2,
   (C5_disparoRele 5999 (tareaRele 3000 estadoInicial)).1 (by decide),
   ((C5_disparoRele 6000 (tareaRele 3000 estadoInicial)).2 (by decide)).1⟩

/-- C6 counterexample: with a valid 14-byte blob stored but serial
input pending, the code still runs interactive acquisition; and a blob
of the wrong size (15 bytes, larger than the expected 14) is not
treated as absent — it is loaded directly. -/
theorem C6_contraejemplo :
    (touch_calibrate (some (List.replicate 14 0)) true []).1
      = AccionCalibracion.interactiva ∧
    (touch_calibrate (some (List.replicate 15 0)) false []).1
      = AccionCalibracion.cargada := by
  decide

/-- C6 (amended): at boot, before the main loop, a missing blob or one
from which 14 bytes cannot be read triggers interactive acquisition and
its result is saved; a stored blob of at least 14 bytes is loaded
directly — skipping acquisition — provided no serial input is pending
(pending serial input forces acquisition even with a valid blob). -/
theorem C6_calibracionArranque (alm : Option (List Nat)) (ser : Bool)
    (adq : List Nat) :
    ((alm = none ∨ ∃ d, alm = some d ∧ d.length < 14) →
      touch_calibrate alm ser adq
        = (AccionCalibracion.interactiva, some (adq.take 14))) ∧
    (∀ d, alm = some d → 14 ≤ d.length → ser = false →
      touch_calibrate alm ser adq = (AccionCalibracion.cargada, alm)) := by
  constructor
  · rintro (rfl | ⟨d, rfl, hd⟩)
    · simp [touch_calibrate]
    · have : ¬ 14 ≤ d.length := by omega
      simp [touch_calibrate, this]
  · rintro d rfl hd hs
    simp [touch_calibrate, hd, hs]

/-- C6 witness: a boot with nothing stored acquires and saves; a boot
with a 14-byte blob and a quiet serial line loads it directly. -/
theorem C6_calibracionArranque_witness :
    touch_calibrate none false [1, 2, 3]
      = (AccionCalibracion.interactiva, some [1, 2, 3]) ∧
    touch_calibrate (some (List.replicate 14 0)) false []
      = (AccionCalibracion.cargada, some (List.replicate 14 0)) :=
  ⟨(C6_calibracionArranque none false [1, 2, 3]).1 (Or.inl rfl),
   (C6_calibracionArranque (some (List.replicate 14 0)) false []).2
     (List.replicate 14 0) rfl (by decide) rfl⟩

/-- C4 counterexample: on a concrete state and readings, the report
does not contain two sensor lines — exactly one of its lines carries a
sensor marker, and that single line holds both channels, as the full
line listing shows. -/
theorem C4_contraejemplo :
    ((lineasDe (enviarReporteEstado estadoInicial (some 250) none)).filter
        esLineaSensor).length = 1 ∧
    lineasDe (enviarReporteEstado estadoInicial (some 250) none)
      = ["", "--- REPORTE ESP32 ---", "S1: 25.0C | S2: ERR",
         "Reles: K1=OFF K2=ON", "Tactil: APAGADO", "Pantalla: ON",
         "---------------------", ""] := by
  decide

/-- C4 (amended): the report is a pure, deterministic function of the
state and the latest readings, and its text is exactly the fixed layout
with a single combined sensor line (one-decimal value with unit or the
`ERR` marker per channel), one relay line for both channels, one line
for the touch output and one for the display state. -/
theorem C4_reporteFormato (s s' : SystemState) (t1 t2 t1' t2' : Option Int) :
    enviarReporteEstado s t1 t2 = reporteEsperado s t1 t2 ∧
    (s = s' → t1 = t1' → t2 = t2' →
      enviarReporteEstado s t1 t2 = enviarReporteEstado s' t1' t2') := by
  constructor
  · simp only [enviarReporteEstado, reporteEsperado, unirLineas,
      String.append_assoc]
    rfl
  · rintro rfl rfl rfl
    rfl

/-- C4 witness: the amended layout equation and determinism at concrete
inputs. -/
theorem C4_reporteFormato_witness :
    enviarReporteEstado estadoInicial (some 250) none
      = reporteEsperado estadoInicial (some 250) none ∧
    enviarReporteEstado estadoInicial (some 250) none
      = enviarReporteEstado estadoInicial (some 250) none :=
  ⟨(C4_reporteFormato estadoInicial estadoInicial (some 250) none
      (some 250) none).1,
   (C4_reporteFormato estadoInicial estadoInicial (some 250) none
      (some 250) none).2 rfl rfl rfl⟩

end ControladorTemperatura
